import Mathlib

/-!
Verification of the SreRuleEngine expression language.

This file is a shallow embedding of the rule-evaluation engine found in
`SreRuleEngine.cpp`: the on-demand lexer (`nextToken`), the recursive-descent
parser (`parseOr`, `parseAnd`, `parseNot`, `parsePrimary`), the two-capability
AST evaluator (`evalBool`, `evalString`) and the engine facade with its two
built-in predicates (`contains`, `containsAny`).  Strings are modelled as
`List Char`; the C++ exceptions are modelled with the structured error type
`SreError`, whose constructors carry the payloads of the original
`std::runtime_error` messages.  The parser takes a fuel parameter so that its
loops are structurally recursive; the top-level `sreEvaluate` supplies fuel
proportional to the input length, which is ample for every input that the C++
parser itself accepts with finitely many tokens.
-/

set_option autoImplicit false

/-- Structured form of the `std::runtime_error` messages thrown by the engine. -/
inductive SreError where
  /-- "Unexpected character: c" from `SreLexer::nextToken`. -/
  | unexpectedChar (c : Char)
  /-- "Not a boolean expression node" from `SreASTNode::evalBool`. -/
  | notBoolNode
  /-- "Not a string expression node" from `SreASTNode::evalString`. -/
  | notStringNode
  /-- "Variable not found: n" from `SreValueNode::evalString`. -/
  | variableNotFound (n : List Char)
  /-- "Function not found: n" from `SreFunctionNode::evalBool`. -/
  | functionNotFound (n : List Char)
  /-- "Unexpected token: t" from `SreParser::parsePrimary`. -/
  | unexpectedToken (t : List Char)
  /-- "Expected token type mismatch" from `SreParser::consume`. -/
  | expectedMismatch
  /-- "contains requires 2 arguments" from the built-in `contains`. -/
  | containsArity
  /-- "containsAny requires at least 2 arguments" from the built-in `containsAny`. -/
  | containsAnyArity
  /-- Embedding artifact: the fuel of the parser ran out. -/
  | outOfFuel
  deriving DecidableEq

/-- The token tags of `SreTokenType` in the source. -/
inductive SreTokenType where
  | identifier
  | stringLiteral
  | comma
  | lparen
  | rparen
  | andTok
  | orTok
  | notTok
  | endTok
  deriving DecidableEq

/-- `SreToken`: a token tag together with its lexeme. -/
structure SreToken where
  type : SreTokenType
  text : List Char
  deriving DecidableEq

/-- The single-quote character that delimits string literals. -/
def quoteCh : Char := Char.ofNat 39

/-- The `#` character. -/
def hashCh : Char := Char.ofNat 35

/-- The `{` character. -/
def lbraceCh : Char := Char.ofNat 123

/-- The `}` character. -/
def rbraceCh : Char := Char.ofNat 125

/-- `std::isalpha` in the default locale. -/
def isAlphaCh (c : Char) : Bool :=
  ('a' ≤ c && c ≤ 'z') || ('A' ≤ c && c ≤ 'Z')

/-- `std::isdigit` in the default locale. -/
def isDigitCh (c : Char) : Bool :=
  '0' ≤ c && c ≤ '9'

/-- `std::isalnum` in the default locale. -/
def isAlnumCh (c : Char) : Bool :=
  isAlphaCh c || isDigitCh c

/-- `std::isspace` in the default locale: space, tab, newline, vertical tab,
form feed, carriage return. -/
def isSpaceCh (c : Char) : Bool :=
  c = ' ' || c = Char.ofNat 9 || c = Char.ofNat 10 || c = Char.ofNat 11 ||
    c = Char.ofNat 12 || c = Char.ofNat 13

/-- `::tolower` in the default locale, applied character-wise. -/
def toLowerCh (c : Char) : Char :=
  if 'A' ≤ c && c ≤ 'Z' then Char.ofNat (c.toNat + 32) else c

/-- `std::transform(..., ::tolower)` over a whole string. -/
def toLowerStr (s : List Char) : List Char :=
  s.map toLowerCh

/-- A character that may start an identifier run: alphabetic or `#`, `{`, `}`. -/
def isWordStart (c : Char) : Bool :=
  isAlphaCh c || c = hashCh || c = lbraceCh || c = rbraceCh

/-- A character that may continue an identifier run: alphanumeric or `#`, `{`, `}`. -/
def isWordCont (c : Char) : Bool :=
  isAlnumCh c || c = hashCh || c = lbraceCh || c = rbraceCh

/-- The greedy identifier-run loop of `SreLexer::nextToken`: returns the run of
word-continuation characters and the remaining input. -/
def takeWord : List Char → List Char × List Char
  | [] => ([], [])
  | c :: cs =>
    if isWordCont c then
      let p := takeWord cs
      (c :: p.1, p.2)
    else ([], c :: cs)

/-- The string-literal loop of `SreLexer::nextToken`: collects characters up to
the next single quote; the closing quote (when present) is skipped.  When the
input ends before a closing quote the whole remainder is the content, exactly
as in the source, which advances past the end without any check. -/
def takeStringLit : List Char → List Char × List Char
  | [] => ([], [])
  | c :: cs =>
    if c = quoteCh then ([], cs)
    else
      let p := takeStringLit cs
      (c :: p.1, p.2)

/-- `SreLexer::skipWhitespace`. -/
def dropSpace : List Char → List Char
  | [] => []
  | c :: cs => if isSpaceCh c then dropSpace cs else c :: cs

/-- Keyword recognition of `SreLexer::nextToken`: the lowercased lexeme is
compared against `and`, `or`, `not`; otherwise the run is an identifier.  The
token keeps the original casing as its lexeme. -/
def classifyWord (s : List Char) : SreToken :=
  let lower := toLowerStr s
  if lower = "and".data then ⟨SreTokenType.andTok, s⟩
  else if lower = "or".data then ⟨SreTokenType.orTok, s⟩
  else if lower = "not".data then ⟨SreTokenType.notTok, s⟩
  else ⟨SreTokenType.identifier, s⟩

/-- `SreLexer::nextToken` on the remaining input: returns the next token and
the input that follows it.  The lexer is on demand: characters after the
returned token are not inspected. -/
def nextToken (input : List Char) : Except SreError (SreToken × List Char) :=
  match dropSpace input with
  | [] => Except.ok (⟨SreTokenType.endTok, []⟩, [])
  | c :: cs =>
    if isWordStart c then
      let p := takeWord (c :: cs)
      Except.ok (classifyWord p.1, p.2)
    else if c = quoteCh then
      let p := takeStringLit cs
      Except.ok (⟨SreTokenType.stringLiteral, p.1⟩, p.2)
    else if c = ',' then Except.ok (⟨SreTokenType.comma, [',']⟩, cs)
    else if c = '(' then Except.ok (⟨SreTokenType.lparen, ['(']⟩, cs)
    else if c = ')' then Except.ok (⟨SreTokenType.rparen, [')']⟩, cs)
    else Except.error (SreError.unexpectedChar c)

example : nextToken "and(".data =
    Except.ok (⟨SreTokenType.andTok, "and".data⟩, "(".data) := rfl

example : nextToken "  OR x".data =
    Except.ok (⟨SreTokenType.orTok, "OR".data⟩, " x".data) := rfl

example : nextToken "#\x7ba\x7d, y".data =
    Except.ok (⟨SreTokenType.identifier, "#\x7ba\x7d".data⟩, ", y".data) := rfl

example : nextToken "\x27abc\x27 rest".data =
    Except.ok (⟨SreTokenType.stringLiteral, "abc".data⟩, " rest".data) := rfl

example : nextToken "\x27abc".data =
    Except.ok (⟨SreTokenType.stringLiteral, "abc".data⟩, [] ) := rfl

example : nextToken "$x".data = Except.error (SreError.unexpectedChar '$') := rfl

/-! ### Abstract syntax and evaluation -/

mutual
/-- The AST of the engine.  The source uses a class hierarchy with a `Logical`
node (operator plus one or two children), a `Value` node and a `Function`
node; the parser only ever builds `And`/`Or` nodes with two children and
`Not` nodes with one, which the constructors here make explicit. -/
inductive SreAst where
  | andN (left right : SreAst)
  | orN (left right : SreAst)
  | notN (operand : SreAst)
  | value (val : List Char) (isVariable : Bool)
  | call (name : List Char) (args : SreAstList)

/-- Argument lists of a call node (`std::vector<SreASTNodePtr>`). -/
inductive SreAstList where
  | nil
  | cons (hd : SreAst) (tl : SreAstList)
end

/-- Append one node at the end of an argument list (`std::vector::push_back`). -/
def SreAstList.pushBack : SreAstList → SreAst → SreAstList
  | SreAstList.nil, a => SreAstList.cons a SreAstList.nil
  | SreAstList.cons x xs, a => SreAstList.cons x (xs.pushBack a)

/-- The variable context `SreContext`: a read-only map from names to values,
modelled as a lookup function (`std::unordered_map::find`). -/
def SreContext : Type := List Char → Option (List Char)

/-- The predicate type `SreFunction`: string arguments to a boolean, possibly
raising. -/
def SreFunction : Type := List (List Char) → Except SreError Bool

/-- The predicate registry owned by the engine: a map from lowercase names to
predicates, modelled as a lookup function. -/
def SreRegistry : Type := List Char → Option SreFunction

mutual
/-- `evalBool` of the node hierarchy.  `Logical` nodes use the C++ `&&`/`||`,
which short-circuit; a `Value` node is truthy iff its string is non-empty; a
call node evaluates its arguments left to right as strings, then looks up the
lowercased function name, raising `Function not found` when absent. -/
def evalBool (node : SreAst) (ctx : SreContext) (functions : SreRegistry) :
    Except SreError Bool :=
  match node with
  | SreAst.andN l r => do
    let lv ← evalBool l ctx functions
    if lv then evalBool r ctx functions else pure false
  | SreAst.orN l r => do
    let lv ← evalBool l ctx functions
    if lv then pure true else evalBool r ctx functions
  | SreAst.notN e => do
    let v ← evalBool e ctx functions
    pure (!v)
  | SreAst.value _ _ => do
    let s ← evalString node ctx functions
    pure (!s.isEmpty)
  | SreAst.call name args => do
    let evaluatedArgs ← evalArgs args ctx functions
    match functions (toLowerStr name) with
    | none => Except.error (SreError.functionNotFound name)
    | some f => f evaluatedArgs

/-- `evalString` of the node hierarchy: defined for `Value` nodes (variables
resolve through the context, literals return themselves); every other node
kind falls through to the base-class method, which raises. -/
def evalString (node : SreAst) (ctx : SreContext) (_functions : SreRegistry) :
    Except SreError (List Char) :=
  match node with
  | SreAst.value v isVariable =>
    if isVariable then
      match ctx v with
      | none => Except.error (SreError.variableNotFound v)
      | some w => Except.ok w
    else Except.ok v
  | _ => Except.error SreError.notStringNode

/-- The argument-evaluation loop of `SreFunctionNode::evalBool`: each argument
is evaluated with `evalString`, left to right. -/
def evalArgs (args : SreAstList) (ctx : SreContext) (functions : SreRegistry) :
    Except SreError (List (List Char)) :=
  match args with
  | SreAstList.nil => Except.ok []
  | SreAstList.cons a as => do
    let v ← evalString a ctx functions
    let vs ← evalArgs as ctx functions
    pure (v :: vs)
end

/-! ### The recursive-descent parser

The parser state is the current token together with the not-yet-lexed rest of
the input, exactly as in `SreParser`, which holds `currentToken_` and pulls
further tokens from the lexer on demand.  The `while` loops of `parseOr`,
`parseAnd` and the argument list are the `...Loop` functions.  A fuel
parameter makes the recursion structural; `SreError.outOfFuel` marks
exhaustion and never occurs for the fuel the engine facade supplies. -/

/-- `SreParser::consume`: check the current token's type, then pull the next
token from the lexer. -/
def consume (t : SreTokenType) (cur : SreToken) (input : List Char) :
    Except SreError (SreToken × List Char) :=
  if cur.type = t then nextToken input
  else Except.error SreError.expectedMismatch

/-- The stripping of `#`, `{`, `}` from an identifier lexeme in
`SreParser::parsePrimary`. -/
def stripVarName (s : List Char) : List Char :=
  s.filter (fun c => ¬(c = hashCh ∨ c = lbraceCh ∨ c = rbraceCh))

mutual
/-- `SreParser::parseOr`: an `and`-level expression followed by the
`while (Or)` loop. -/
def parseOr (fuel : Nat) (cur : SreToken) (input : List Char) :
    Except SreError (SreAst × SreToken × List Char) :=
  match fuel with
  | 0 => Except.error SreError.outOfFuel
  | f + 1 => do
    let (node, cur, input) ← parseAnd f cur input
    parseOrLoop f node cur input

/-- The `while (currentToken.type == Or)` loop of `SreParser::parseOr`. -/
def parseOrLoop (fuel : Nat) (node : SreAst) (cur : SreToken) (input : List Char) :
    Except SreError (SreAst × SreToken × List Char) :=
  match fuel with
  | 0 => Except.error SreError.outOfFuel
  | f + 1 =>
    if cur.type = SreTokenType.orTok then do
      let (cur, input) ← consume SreTokenType.orTok cur input
      let (right, cur, input) ← parseAnd f cur input
      parseOrLoop f (SreAst.orN node right) cur input
    else Except.ok (node, cur, input)

/-- `SreParser::parseAnd`: a `not`-level expression followed by the
`while (And)` loop. -/
def parseAnd (fuel : Nat) (cur : SreToken) (input : List Char) :
    Except SreError (SreAst × SreToken × List Char) :=
  match fuel with
  | 0 => Except.error SreError.outOfFuel
  | f + 1 => do
    let (node, cur, input) ← parseNot f cur input
    parseAndLoop f node cur input

/-- The `while (currentToken.type == And)` loop of `SreParser::parseAnd`. -/
def parseAndLoop (fuel : Nat) (node : SreAst) (cur : SreToken) (input : List Char) :
    Except SreError (SreAst × SreToken × List Char) :=
  match fuel with
  | 0 => Except.error SreError.outOfFuel
  | f + 1 =>
    if cur.type = SreTokenType.andTok then do
      let (cur, input) ← consume SreTokenType.andTok cur input
      let (right, cur, input) ← parseNot f cur input
      parseAndLoop f (SreAst.andN node right) cur input
    else Except.ok (node, cur, input)

/-- `SreParser::parseNot`: an optional `not` keyword in front of a primary. -/
def parseNot (fuel : Nat) (cur : SreToken) (input : List Char) :
    Except SreError (SreAst × SreToken × List Char) :=
  match fuel with
  | 0 => Except.error SreError.outOfFuel
  | f + 1 =>
    if cur.type = SreTokenType.notTok then do
      let (cur, input) ← consume SreTokenType.notTok cur input
      let (operand, cur, input) ← parsePrimary f cur input
      Except.ok (SreAst.notN operand, cur, input)
    else parsePrimary f cur input

/-- `SreParser::parsePrimary`: parenthesized expression, call, identifier
(variable reference or bare string), or string literal. -/
def parsePrimary (fuel : Nat) (cur : SreToken) (input : List Char) :
    Except SreError (SreAst × SreToken × List Char) :=
  match fuel with
  | 0 => Except.error SreError.outOfFuel
  | f + 1 =>
    if cur.type = SreTokenType.lparen then do
      let (cur, input) ← consume SreTokenType.lparen cur input
      let (node, cur, input) ← parseOr f cur input
      let (cur, input) ← consume SreTokenType.rparen cur input
      Except.ok (node, cur, input)
    else if cur.type = SreTokenType.identifier then do
      let name := cur.text
      let (cur, input) ← consume SreTokenType.identifier cur input
      if cur.type = SreTokenType.lparen then do
        let (cur, input) ← consume SreTokenType.lparen cur input
        if cur.type ≠ SreTokenType.rparen then do
          let (first, cur, input) ← parseOr f cur input
          let (args, cur, input) ←
            parseArgsLoop f (SreAstList.cons first SreAstList.nil) cur input
          let (cur, input) ← consume SreTokenType.rparen cur input
          Except.ok (SreAst.call name args, cur, input)
        else do
          let (cur, input) ← consume SreTokenType.rparen cur input
          Except.ok (SreAst.call name SreAstList.nil, cur, input)
      else
        let isVar := name.contains hashCh
        Except.ok (SreAst.value (stripVarName name) isVar, cur, input)
    else if cur.type = SreTokenType.stringLiteral then do
      let s := cur.text
      let (cur, input) ← consume SreTokenType.stringLiteral cur input
      Except.ok (SreAst.value s false, cur, input)
    else Except.error (SreError.unexpectedToken cur.text)

/-- The `while (currentToken.type == Comma)` argument loop of
`SreParser::parsePrimary`. -/
def parseArgsLoop (fuel : Nat) (args : SreAstList) (cur : SreToken) (input : List Char) :
    Except SreError (SreAstList × SreToken × List Char) :=
  match fuel with
  | 0 => Except.error SreError.outOfFuel
  | f + 1 =>
    if cur.type = SreTokenType.comma then do
      let (cur, input) ← consume SreTokenType.comma cur input
      let (e, cur, input) ← parseOr f cur input
      parseArgsLoop f (args.pushBack e) cur input
    else Except.ok (args, cur, input)
end

/-- `SreParser::parseExpression`: the top level is `parseOr`. -/
def parseExpression (fuel : Nat) (cur : SreToken) (input : List Char) :
    Except SreError (SreAst × SreToken × List Char) :=
  parseOr fuel cur input

/-- Construct the parser (which lexes the first token) and parse the leading
expression: the combination of the `SreParser` constructor with
`parseExpression`.  The result is the AST, the current (first unconsumed)
token, and the unread characters. -/
def parseProgram (fuel : Nat) (s : List Char) :
    Except SreError (SreAst × SreToken × List Char) := do
  let (cur, input) ← nextToken s
  parseExpression fuel cur input

/-! ### Engine facade and built-in predicates -/

/-- The substring test `haystack.find(needle) != std::string::npos`. -/
def isPrefixList : List Char → List Char → Bool
  | [], _ => true
  | _ :: _, [] => false
  | a :: as, b :: bs => a = b && isPrefixList as bs

/-- `strContains hay needle` holds iff `needle` occurs contiguously in `hay`,
i.e. `hay.find(needle) != std::string::npos`. -/
def strContains : List Char → List Char → Bool
  | hay, needle =>
    isPrefixList needle hay ||
      match hay with
      | [] => false
      | _ :: t => strContains t needle

/-- The built-in `contains` predicate: exactly two arguments, substring test. -/
def containsFn : SreFunction
  | [a, b] => Except.ok (strContains a b)
  | _ => Except.error SreError.containsArity

/-- The loop of the built-in `containsAny`: does the first argument contain
any of the remaining ones? -/
def containsAnyAux (a : List Char) : List (List Char) → Bool
  | [] => false
  | x :: xs => strContains a x || containsAnyAux a xs

/-- The built-in `containsAny` predicate: at least two arguments; true iff the
first contains one of the rest. -/
def containsAnyFn : SreFunction
  | a :: b :: rest => Except.ok (containsAnyAux a (b :: rest))
  | _ => Except.error SreError.containsAnyArity

/-- `SreRuleEngine::registerFunction`: lowercase the name and store the
predicate under it, replacing any previous entry. -/
def registerFunction (functions : SreRegistry) (name : List Char) (func : SreFunction) :
    SreRegistry :=
  fun k => if k = toLowerStr name then some func else functions k

/-- `SreRuleEngine::initBuiltInFunctions` applied to the empty registry: the
registry of a freshly constructed engine. -/
def initBuiltInFunctions : SreRegistry :=
  registerFunction
    (registerFunction (fun _ => none) "contains".data containsFn)
    "containsany".data containsAnyFn

/-- Fuel supplied to the parser by the engine facade: generous enough for any
parse, since every descent of more than five levels consumes a character. -/
def fuelFor (s : List Char) : Nat :=
  8 * s.length + 8

/-- `SreRuleEngine::evaluate`: lex and parse the leading expression, then
evaluate the root node as a boolean.  The parser's final state — the first
unconsumed token and the unread characters — is dropped. -/
def sreEvaluate (expression : List Char) (ctx : SreContext) (functions : SreRegistry) :
    Except SreError Bool := do
  let (root, _, _) ← parseProgram (fuelFor expression) expression
  evalBool root ctx functions

/-- The sample context of the specification's end-to-end scenarios:
`a ↦ hello`, `b ↦ hello, world, xxxx`. -/
def sampleCtx : SreContext :=
  fun k =>
    if k = "a".data then some "hello".data
    else if k = "b".data then some "hello, world, xxxx".data
    else none

example :
    sreEvaluate "(contains(#\x7ba\x7d, \x27ell\x27) or contains(#\x7ba\x7d, \x27zzz\x27)) and containsAny(#\x7bb\x7d, \x27xxx\x27, \x2722\x27)".data
      sampleCtx initBuiltInFunctions = Except.ok true := rfl

example :
    sreEvaluate "(contains(#\x7ba\x7d, \x27xxx\x27)) and containsAny(#\x7bb\x7d, \x27xxx\x27, \x2722\x27)".data
      sampleCtx initBuiltInFunctions = Except.ok false := rfl

example :
    sreEvaluate "(not contains(#\x7ba\x7d, \x27xxx\x27)) and containsAny(#\x7bb\x7d, \x27xxxx\x27, \x2722\x27)".data
      sampleCtx initBuiltInFunctions = Except.ok true := rfl

example :
    sreEvaluate "contains(#\x7bmissing\x7d, \x27x\x27)".data
      sampleCtx initBuiltInFunctions = Except.error (SreError.variableNotFound "missing".data) := rfl

example :
    sreEvaluate "frobnicate(#\x7ba\x7d)".data
      sampleCtx initBuiltInFunctions = Except.error (SreError.functionNotFound "frobnicate".data) := rfl

/-! ### Helper lemmas -/

/-- Binding a successful `Except` computation applies the continuation. -/
theorem okBind {α β ε : Type} (a : α) (f : α → Except ε β) :
    (Except.ok a : Except ε α) >>= f = f a := rfl

/-- Binding a failed `Except` computation propagates the error. -/
theorem errBind {α β ε : Type} (e : ε) (f : α → Except ε β) :
    (Except.error e : Except ε α) >>= f = Except.error e := rfl

/-- Every string is a prefix of itself. -/
theorem isPrefixList_self (x : List Char) : isPrefixList x x = true := by
  induction x with
  | nil => rfl
  | cons a as ih => simp [isPrefixList, ih]

/-- The empty needle occurs in every haystack. -/
theorem strContains_nil_needle (x : List Char) : strContains x [] = true := by
  cases x <;> simp [strContains, isPrefixList]

/-- Every string occurs in itself. -/
theorem strContains_self (x : List Char) : strContains x x = true := by
  cases x with
  | nil => rfl
  | cons a as => simp [strContains, isPrefixList_self]

/-- The empty haystack contains only the empty needle. -/
theorem strContains_nil_hay (y : List Char) : strContains [] y = true ↔ y = [] := by
  cases y <;> simp [strContains, isPrefixList]

/-! ### The claims -/

/-- C6.  Substring laws of the built-in `contains` on exactly two string
arguments: `contains(x, '')` is true for every `x`; `contains(x, x)` is true
for every `x`; `contains('', y)` is true iff `y` is empty. -/
theorem claim_C6_contains_substring_laws (x y : List Char) :
    containsFn [x, []] = Except.ok true ∧
    containsFn [x, x] = Except.ok true ∧
    (containsFn [[], y] = Except.ok true ↔ y = []) := by
  refine ⟨?_, ?_, ?_⟩
  · simp [containsFn, strContains_nil_needle]
  · simp [containsFn, strContains_self]
  · simp [containsFn, strContains_nil_hay]

/-- C7.  Arity contract of the built-ins: `contains` rejects any argument
count other than two and `containsAny` rejects fewer than two arguments, each
raising its own evaluation error; with conforming arity neither raises on any
string arguments. -/
theorem claim_C7_builtin_arity (args : List (List Char)) :
    (args.length ≠ 2 → containsFn args = Except.error SreError.containsArity) ∧
    (args.length < 2 → containsAnyFn args = Except.error SreError.containsAnyArity) ∧
    (args.length = 2 → ∃ b, containsFn args = Except.ok b) ∧
    (2 ≤ args.length → ∃ b, containsAnyFn args = Except.ok b) := by
  match args with
  | [] => exact ⟨fun _ => rfl, fun _ => rfl, fun h => by simp at h, fun h => by simp at h⟩
  | [a] =>
    exact ⟨fun _ => rfl, fun _ => rfl, fun h => by simp at h, fun h => by simp at h⟩
  | [a, b] =>
    exact ⟨fun h => absurd rfl h, fun h => by simp at h,
      fun _ => ⟨strContains a b, rfl⟩, fun _ => ⟨containsAnyAux a [b], rfl⟩⟩
  | a :: b :: c :: rest =>
    refine ⟨fun _ => rfl, fun h => absurd h (by simp only [List.length_cons]; omega),
      fun h => absurd h (by simp only [List.length_cons]; omega), ?_⟩
    exact fun _ => ⟨containsAnyAux a (b :: c :: rest), rfl⟩

/-- C7 witness: the arity contract at concrete inputs. -/
theorem claim_C7_builtin_arity_witness :
    containsFn ["a".data] = Except.error SreError.containsArity ∧
    containsAnyFn ["a".data] = Except.error SreError.containsAnyArity ∧
    (∃ b, containsFn ["ab".data, "b".data] = Except.ok b) ∧
    (∃ b, containsAnyFn ["ab".data, "b".data] = Except.ok b) :=
  ⟨(claim_C7_builtin_arity ["a".data]).1 (by decide),
   (claim_C7_builtin_arity ["a".data]).2.1 (by decide),
   (claim_C7_builtin_arity ["ab".data, "b".data]).2.2.1 (by decide),
   (claim_C7_builtin_arity ["ab".data, "b".data]).2.2.2 (by decide)⟩

/-- C8.  Requesting the string capability of a non-string node raises the
structural type error of the base class: `evalString` fails on every
`Logical` and `Call` node, and a call one of whose arguments is such a node
propagates that error out of `evaluate`, as in `contains(not 'x', 'y')` and
`contains(contains('a','b'), 'c')`. -/
theorem claim_C8_evalString_type_error :
    (∀ (l r : SreAst) (ctx : SreContext) (fns : SreRegistry),
      evalString (SreAst.andN l r) ctx fns = Except.error SreError.notStringNode ∧
      evalString (SreAst.orN l r) ctx fns = Except.error SreError.notStringNode) ∧
    (∀ (e : SreAst) (ctx : SreContext) (fns : SreRegistry),
      evalString (SreAst.notN e) ctx fns = Except.error SreError.notStringNode) ∧
    (∀ (nm : List Char) (args : SreAstList) (ctx : SreContext) (fns : SreRegistry),
      evalString (SreAst.call nm args) ctx fns = Except.error SreError.notStringNode) ∧
    (∀ ctx : SreContext,
      sreEvaluate "contains(not \x27x\x27, \x27y\x27)".data ctx initBuiltInFunctions =
        Except.error SreError.notStringNode) ∧
    (∀ ctx : SreContext,
      sreEvaluate "contains(contains(\x27a\x27,\x27b\x27), \x27c\x27)".data ctx
        initBuiltInFunctions = Except.error SreError.notStringNode) :=
  ⟨fun _ _ _ _ => ⟨rfl, rfl⟩, fun _ _ _ => rfl, fun _ _ _ _ => rfl,
   fun _ => rfl, fun _ => rfl⟩

/-- C3.  An unresolved variable reference is a hard error: resolving a
variable node whose name is not a context key raises `Variable not found`
naming the variable; an identifier token not followed by `(` parses to a
value node whose name has `#`, `{`, `}` stripped and which is a variable iff
the lexeme contains `#`; and the end-to-end example
`contains(#{missing}, 'x')` under a context without the key `missing` raises
`Variable not found: missing` out of `evaluate`. -/
theorem claim_C3_unknown_variable
    (nm : List Char) (ctx : SreContext) (fns : SreRegistry)
    (f : Nat) (w input : List Char) (cur' : SreToken) (inp' : List Char)
    (hvar : ctx nm = none)
    (hn : nextToken input = Except.ok (cur', inp'))
    (hl : cur'.type ≠ SreTokenType.lparen)
    (hm : ctx "missing".data = none) :
    evalString (SreAst.value nm true) ctx fns =
      Except.error (SreError.variableNotFound nm) ∧
    parsePrimary (f + 1) ⟨SreTokenType.identifier, w⟩ input =
      Except.ok (SreAst.value (stripVarName w) (w.contains hashCh), cur', inp') ∧
    sreEvaluate "contains(#\x7bmissing\x7d, \x27x\x27)".data ctx initBuiltInFunctions =
      Except.error (SreError.variableNotFound "missing".data) := by
  refine ⟨by simp [evalString, hvar], ?_, ?_⟩
  · simp [parsePrimary, consume, hn, okBind, hl]
  · have h1 : sreEvaluate "contains(#\x7bmissing\x7d, \x27x\x27)".data ctx
        initBuiltInFunctions =
        evalBool (SreAst.call "contains".data
          (SreAstList.cons (SreAst.value "missing".data true)
            (SreAstList.cons (SreAst.value "x".data false) SreAstList.nil)))
          ctx initBuiltInFunctions := rfl
    rw [h1]
    simp [evalBool, evalArgs, evalString, hm, errBind]

/-- C3 witness: the theorem applied to the empty context, the identifier
lexeme `#{a}` followed by a comma, and fuel 0. -/
theorem claim_C3_unknown_variable_witness :
    evalString (SreAst.value "missing".data true) (fun _ => none) initBuiltInFunctions =
      Except.error (SreError.variableNotFound "missing".data) ∧
    parsePrimary 1 ⟨SreTokenType.identifier, "#\x7ba\x7d".data⟩ ", y".data =
      Except.ok (SreAst.value (stripVarName "#\x7ba\x7d".data)
        (("#\x7ba\x7d".data).contains hashCh), ⟨SreTokenType.comma, ",".data⟩, " y".data) ∧
    sreEvaluate "contains(#\x7bmissing\x7d, \x27x\x27)".data (fun _ => none)
      initBuiltInFunctions =
      Except.error (SreError.variableNotFound "missing".data) :=
  claim_C3_unknown_variable "missing".data (fun _ => none) initBuiltInFunctions
    0 "#\x7ba\x7d".data ", y".data ⟨SreTokenType.comma, ",".data⟩ " y".data
    rfl rfl (by decide) rfl

/-- C4.  A call whose lowercased name is not registered, and whose arguments
all evaluate to strings without error, raises `Function not found` naming the
function (in its original casing); in particular `frobnicate(#{a})` with `a`
bound in the context and no such predicate registered raises it out of
`evaluate`. -/
theorem claim_C4_unknown_function
    (nm : List Char) (args : SreAstList) (ctx : SreContext) (fns : SreRegistry)
    (vals : List (List Char)) (v : List Char)
    (hargs : evalArgs args ctx fns = Except.ok vals)
    (hnone : fns (toLowerStr nm) = none)
    (hctx : ctx "a".data = some v) :
    evalBool (SreAst.call nm args) ctx fns =
      Except.error (SreError.functionNotFound nm) ∧
    sreEvaluate "frobnicate(#\x7ba\x7d)".data ctx initBuiltInFunctions =
      Except.error (SreError.functionNotFound "frobnicate".data) := by
  constructor
  · simp [evalBool, hargs, okBind, hnone]
  · have h1 : sreEvaluate "frobnicate(#\x7ba\x7d)".data ctx initBuiltInFunctions =
        evalBool (SreAst.call "frobnicate".data
          (SreAstList.cons (SreAst.value "a".data true) SreAstList.nil))
          ctx initBuiltInFunctions := rfl
    rw [h1]
    simp [evalBool, evalArgs, evalString, hctx, okBind]
    rfl

/-- C4 witness: the theorem applied to the sample context and the engine's
built-in registry, with an empty argument list. -/
theorem claim_C4_unknown_function_witness :
    evalBool (SreAst.call "frobnicate".data SreAstList.nil) sampleCtx
      initBuiltInFunctions = Except.error (SreError.functionNotFound "frobnicate".data) ∧
    sreEvaluate "frobnicate(#\x7ba\x7d)".data sampleCtx initBuiltInFunctions =
      Except.error (SreError.functionNotFound "frobnicate".data) :=
  claim_C4_unknown_function "frobnicate".data SreAstList.nil sampleCtx
    initBuiltInFunctions [] "hello".data rfl rfl rfl

/-- C10.  A call node evaluates all of its arguments to strings, left to
right, before the function name is lowercased and looked up: an error while
evaluating the arguments is the result of the call even when the lookup would
also fail; the first argument is evaluated before the rest; and
`frobnicate(#{missing})` with `missing` unbound raises `Variable not found`,
not `Function not found`. -/
theorem claim_C10_args_evaluated_before_lookup :
    (∀ (nm : List Char) (args : SreAstList) (ctx : SreContext) (fns : SreRegistry)
      (e : SreError), evalArgs args ctx fns = Except.error e →
        evalBool (SreAst.call nm args) ctx fns = Except.error e) ∧
    (∀ (a : SreAst) (as : SreAstList) (ctx : SreContext) (fns : SreRegistry)
      (e : SreError), evalString a ctx fns = Except.error e →
        evalArgs (SreAstList.cons a as) ctx fns = Except.error e) ∧
    (∀ (a : SreAst) (as : SreAstList) (ctx : SreContext) (fns : SreRegistry)
      (v : List Char), evalString a ctx fns = Except.ok v →
        evalArgs (SreAstList.cons a as) ctx fns =
          (evalArgs as ctx fns).map (fun vs => v :: vs)) ∧
    (∀ ctx : SreContext, ctx "missing".data = none →
      sreEvaluate "frobnicate(#\x7bmissing\x7d)".data ctx initBuiltInFunctions =
        Except.error (SreError.variableNotFound "missing".data)) := by
  refine ⟨?_, ?_, ?_, ?_⟩
  · intro nm args ctx fns e h
    simp [evalBool, h, errBind]
  · intro a as ctx fns e h
    simp [evalArgs, h, errBind]
  · intro a as ctx fns v h
    simp [evalArgs, h, okBind]
    cases evalArgs as ctx fns <;> rfl
  · intro ctx hm
    have h1 : sreEvaluate "frobnicate(#\x7bmissing\x7d)".data ctx initBuiltInFunctions =
        evalBool (SreAst.call "frobnicate".data
          (SreAstList.cons (SreAst.value "missing".data true) SreAstList.nil))
          ctx initBuiltInFunctions := rfl
    rw [h1]
    simp [evalBool, evalArgs, evalString, hm, errBind]

/-- C10 witness: each part applied at concrete inputs; the call
`frobnicate(#{missing})` under the empty context fails with the variable
error, not the function-lookup error. -/
theorem claim_C10_args_evaluated_before_lookup_witness :
    evalBool (SreAst.call "frobnicate".data
      (SreAstList.cons (SreAst.value "missing".data true) SreAstList.nil))
      (fun _ => none) initBuiltInFunctions =
      Except.error (SreError.variableNotFound "missing".data) ∧
    evalArgs (SreAstList.cons (SreAst.value "missing".data true) SreAstList.nil)
      (fun _ => none) initBuiltInFunctions =
      Except.error (SreError.variableNotFound "missing".data) ∧
    evalArgs (SreAstList.cons (SreAst.value "x".data false) SreAstList.nil)
      (fun _ => none) initBuiltInFunctions =
      (evalArgs SreAstList.nil (fun _ => none) initBuiltInFunctions).map
        (fun vs => "x".data :: vs) ∧
    sreEvaluate "frobnicate(#\x7bmissing\x7d)".data (fun _ => none)
      initBuiltInFunctions = Except.error (SreError.variableNotFound "missing".data) :=
  ⟨claim_C10_args_evaluated_before_lookup.1 "frobnicate".data
      (SreAstList.cons (SreAst.value "missing".data true) SreAstList.nil)
      (fun _ => none) initBuiltInFunctions _ rfl,
   claim_C10_args_evaluated_before_lookup.2.1 (SreAst.value "missing".data true)
      SreAstList.nil (fun _ => none) initBuiltInFunctions _ rfl,
   claim_C10_args_evaluated_before_lookup.2.2.1 (SreAst.value "x".data false)
      SreAstList.nil (fun _ => none) initBuiltInFunctions "x".data rfl,
   claim_C10_args_evaluated_before_lookup.2.2.2 (fun _ => none) rfl⟩

/-- A string without a quote is consumed whole by the string-literal loop:
the literal runs to the end of the input and nothing remains. -/
theorem takeStringLit_no_quote (s : List Char) (h : quoteCh ∉ s) :
    takeStringLit s = (s, []) := by
  induction s with
  | nil => rfl
  | cons c cs ih =>
    simp only [List.mem_cons, not_or] at h
    simp [takeStringLit, Ne.symm h.1, ih h.2]

/-- C1 counterexample: the input `'abc` consists of a string literal whose
opening quote is never closed, yet `evaluate` raises nothing — it returns the
boolean `true` (the literal `abc` is non-empty), contradicting the claim that
an unterminated literal is a lex error. -/
theorem claim_C1_counterexample :
    sreEvaluate "\x27abc".data sampleCtx initBuiltInFunctions = Except.ok true := rfl

/-- C1 amended: an unterminated string literal is not an error.  The lexer
returns a `StringLiteral` token whose content is the whole remainder of the
input after the opening quote, and lexing continues from the end of input. -/
theorem claim_C1_amended (s : List Char) (h : quoteCh ∉ s) :
    nextToken (quoteCh :: s) =
      Except.ok (⟨SreTokenType.stringLiteral, s⟩, []) := by
  have h1 : nextToken (quoteCh :: s) =
      Except.ok (⟨SreTokenType.stringLiteral, (takeStringLit s).1⟩,
        (takeStringLit s).2) := rfl
  rw [h1, takeStringLit_no_quote s h]

/-- C1 witness: the amended statement at the unterminated input `'abc`. -/
theorem claim_C1_amended_witness :
    quoteCh ∉ "abc".data ∧
    nextToken (quoteCh :: "abc".data) =
      Except.ok (⟨SreTokenType.stringLiteral, "abc".data⟩, []) :=
  ⟨by decide, claim_C1_amended "abc".data (by decide)⟩

/-- C9.  `evaluate` does not require the whole input to be consumed: when the
leading expression parses and the first unconsumed token is neither `and` nor
`or` (nor `End`, i.e. trailing characters exist), `evaluate` returns the value
of the leading expression; the trailing material is ignored.  In `'x' 'y'`
the second literal is ignored, and in `'x' ) $$$` even unlexable characters
after the first trailing token are never reached. -/
theorem claim_C9_trailing_input_ignored :
    (∀ (s : List Char) (ctx : SreContext) (fns : SreRegistry) (ast : SreAst)
      (tok : SreToken) (rest : List Char),
      parseProgram (fuelFor s) s = Except.ok (ast, tok, rest) →
      tok.type ≠ SreTokenType.endTok →
      tok.type ≠ SreTokenType.andTok →
      tok.type ≠ SreTokenType.orTok →
      sreEvaluate s ctx fns = evalBool ast ctx fns) ∧
    sreEvaluate "\x27x\x27 \x27y\x27".data sampleCtx initBuiltInFunctions =
      Except.ok true ∧
    sreEvaluate "\x27x\x27 ) $$$".data sampleCtx initBuiltInFunctions =
      Except.ok true := by
  refine ⟨?_, rfl, rfl⟩
  intro s ctx fns ast tok rest hp _ _ _
  show (parseProgram (fuelFor s) s >>= fun r => evalBool r.1 ctx fns) =
    evalBool ast ctx fns
  rw [hp]
  rfl

/-- C9 witness: the general statement applied to `'x' 'y'`, whose first
unconsumed token is the string literal `y`. -/
theorem claim_C9_trailing_input_ignored_witness :
    parseProgram (fuelFor "\x27x\x27 \x27y\x27".data) "\x27x\x27 \x27y\x27".data =
      Except.ok (SreAst.value "x".data false,
        ⟨SreTokenType.stringLiteral, "y".data⟩, []) ∧
    sreEvaluate "\x27x\x27 \x27y\x27".data sampleCtx initBuiltInFunctions =
      evalBool (SreAst.value "x".data false) sampleCtx initBuiltInFunctions :=
  ⟨rfl, claim_C9_trailing_input_ignored.1 "\x27x\x27 \x27y\x27".data sampleCtx
    initBuiltInFunctions (SreAst.value "x".data false)
    ⟨SreTokenType.stringLiteral, "y".data⟩ [] rfl
    (by decide) (by decide) (by decide)⟩

/-- C5.  Case-insensitivity: keyword recognition in the lexer depends only on
the lowercased lexeme; a call node's result depends on the called name only
through its lowercased form — identically-registered lookups give the same
boolean, and an unregistered name fails with the same kind of error
(`Function not found`) under either casing; registering a predicate under any
casing of a name yields the same registry; and the end-to-end example with
`CONTAINS`/`AND`/`NOT`/`ContainsAny` recased evaluates identically to its
lowercase spelling. -/
theorem claim_C5_case_insensitivity :
    (∀ w1 w2 : List Char, toLowerStr w1 = toLowerStr w2 →
      (classifyWord w1).type = (classifyWord w2).type) ∧
    (∀ (n1 n2 : List Char) (args : SreAstList) (ctx : SreContext)
      (fns : SreRegistry), toLowerStr n1 = toLowerStr n2 →
      evalBool (SreAst.call n1 args) ctx fns =
          evalBool (SreAst.call n2 args) ctx fns ∨
        (evalBool (SreAst.call n1 args) ctx fns =
            Except.error (SreError.functionNotFound n1) ∧
         evalBool (SreAst.call n2 args) ctx fns =
            Except.error (SreError.functionNotFound n2))) ∧
    (∀ (reg : SreRegistry) (n1 n2 : List Char) (f : SreFunction),
      toLowerStr n1 = toLowerStr n2 →
      registerFunction reg n1 f = registerFunction reg n2 f) ∧
    sreEvaluate "CONTAINS(#\x7ba\x7d, \x27ell\x27) AND NOT ContainsAny(#\x7ba\x7d, \x27zz\x27)".data
        sampleCtx initBuiltInFunctions =
      sreEvaluate "contains(#\x7ba\x7d, \x27ell\x27) and not containsany(#\x7ba\x7d, \x27zz\x27)".data
        sampleCtx initBuiltInFunctions := by
  have dL : sreEvaluate "CONTAINS(#\x7ba\x7d, \x27ell\x27) AND NOT ContainsAny(#\x7ba\x7d, \x27zz\x27)".data
      sampleCtx initBuiltInFunctions = Except.ok true := rfl
  have dR : sreEvaluate "contains(#\x7ba\x7d, \x27ell\x27) and not containsany(#\x7ba\x7d, \x27zz\x27)".data
      sampleCtx initBuiltInFunctions = Except.ok true := rfl
  refine ⟨?_, ?_, ?_, dL.trans dR.symm⟩
  · intro w1 w2 h
    simp only [classifyWord]
    rw [h]
    split_ifs <;> rfl
  · intro n1 n2 args ctx fns h
    have e1 : evalBool (SreAst.call n1 args) ctx fns =
        (evalArgs args ctx fns >>= fun vals =>
          match fns (toLowerStr n1) with
          | none => Except.error (SreError.functionNotFound n1)
          | some f => f vals) := rfl
    have e2 : evalBool (SreAst.call n2 args) ctx fns =
        (evalArgs args ctx fns >>= fun vals =>
          match fns (toLowerStr n2) with
          | none => Except.error (SreError.functionNotFound n2)
          | some f => f vals) := rfl
    rw [e1, e2, h]
    cases hv : evalArgs args ctx fns with
    | error e => left; rfl
    | ok vals =>
      cases hf : fns (toLowerStr n2) with
      | none => right; exact ⟨rfl, rfl⟩
      | some f => left; rfl
  · intro reg n1 n2 f h
    funext k
    simp [registerFunction, h]

/-- C5 witness: the lexer part at `AND`/`and`, the call part at `CONTAINS`
versus `contains`, and the registry part at `MyPred` versus `mypred`. -/
theorem claim_C5_case_insensitivity_witness :
    (classifyWord "AND".data).type = (classifyWord "and".data).type ∧
    (evalBool (SreAst.call "CONTAINS".data SreAstList.nil) sampleCtx
        initBuiltInFunctions =
      evalBool (SreAst.call "contains".data SreAstList.nil) sampleCtx
        initBuiltInFunctions ∨
      (evalBool (SreAst.call "CONTAINS".data SreAstList.nil) sampleCtx
          initBuiltInFunctions =
        Except.error (SreError.functionNotFound "CONTAINS".data) ∧
       evalBool (SreAst.call "contains".data SreAstList.nil) sampleCtx
          initBuiltInFunctions =
        Except.error (SreError.functionNotFound "contains".data))) ∧
    registerFunction initBuiltInFunctions "MyPred".data containsFn =
      registerFunction initBuiltInFunctions "mypred".data containsFn :=
  ⟨claim_C5_case_insensitivity.1 "AND".data "and".data (by decide),
   claim_C5_case_insensitivity.2.1 "CONTAINS".data "contains".data SreAstList.nil
     sampleCtx initBuiltInFunctions (by decide),
   claim_C5_case_insensitivity.2.2.1 initBuiltInFunctions "MyPred".data
     "mypred".data containsFn (by decide)⟩

/-! ### Step lemmas for the parser

Each lemma exposes one step of the recursive descent, so that a concrete
derivation can be replayed against hypotheses about the subparses. -/

/-- One step of `parseOr`: descend into `parseAnd`, then run the `or` loop. -/
theorem parseOr_step (fuel f : Nat) (hf : fuel = f + 1) (cur : SreToken)
    (input : List Char) :
    parseOr fuel cur input =
      (parseAnd f cur input >>= fun r => parseOrLoop f r.1 r.2.1 r.2.2) := by
  subst hf; rfl

/-- One step of `parseAnd`: descend into `parseNot`, then run the `and` loop. -/
theorem parseAnd_step (fuel f : Nat) (hf : fuel = f + 1) (cur : SreToken)
    (input : List Char) :
    parseAnd fuel cur input =
      (parseNot f cur input >>= fun r => parseAndLoop f r.1 r.2.1 r.2.2) := by
  subst hf; rfl

/-- The `or` loop on an `or` keyword token: consume it, parse the right
conjunct, continue the loop around an `Or` node. -/
theorem parseOrLoop_or (fuel f : Nat) (hf : fuel = f + 1) (node : SreAst)
    (t : List Char) (input : List Char) :
    parseOrLoop fuel node ⟨SreTokenType.orTok, t⟩ input =
      (nextToken input >>= fun p => parseAnd f p.1 p.2 >>= fun r =>
        parseOrLoop f (SreAst.orN node r.1) r.2.1 r.2.2) := by
  subst hf; rfl

/-- The `or` loop stops on any other token. -/
theorem parseOrLoop_exit (fuel f : Nat) (hf : fuel = f + 1) (node : SreAst)
    (cur : SreToken) (input : List Char) (h : cur.type ≠ SreTokenType.orTok) :
    parseOrLoop fuel node cur input = Except.ok (node, cur, input) := by
  subst hf; simp [parseOrLoop, h]

/-- The `and` loop on an `and` keyword token: consume it, parse the right
conjunct, continue the loop around an `And` node. -/
theorem parseAndLoop_and (fuel f : Nat) (hf : fuel = f + 1) (node : SreAst)
    (t : List Char) (input : List Char) :
    parseAndLoop fuel node ⟨SreTokenType.andTok, t⟩ input =
      (nextToken input >>= fun p => parseNot f p.1 p.2 >>= fun r =>
        parseAndLoop f (SreAst.andN node r.1) r.2.1 r.2.2) := by
  subst hf; rfl

/-- The `and` loop stops on any other token. -/
theorem parseAndLoop_exit (fuel f : Nat) (hf : fuel = f + 1) (node : SreAst)
    (cur : SreToken) (input : List Char) (h : cur.type ≠ SreTokenType.andTok) :
    parseAndLoop fuel node cur input = Except.ok (node, cur, input) := by
  subst hf; simp [parseAndLoop, h]

/-- `parseNot` on a `not` keyword token: consume it and negate the primary. -/
theorem parseNot_not (fuel f : Nat) (hf : fuel = f + 1) (t : List Char)
    (input : List Char) :
    parseNot fuel ⟨SreTokenType.notTok, t⟩ input =
      (nextToken input >>= fun p => parsePrimary f p.1 p.2 >>= fun r =>
        Except.ok (SreAst.notN r.1, r.2.1, r.2.2)) := by
  subst hf; rfl

/-- `parseNot` on any other token falls through to `parsePrimary`. -/
theorem parseNot_skip (fuel f : Nat) (hf : fuel = f + 1) (cur : SreToken)
    (input : List Char) (h : cur.type ≠ SreTokenType.notTok) :
    parseNot fuel cur input = parsePrimary f cur input := by
  subst hf; simp [parseNot, h]

/-- `parsePrimary` on `(`: consume it, parse a full expression, require `)`. -/
theorem parsePrimary_lparen (fuel f : Nat) (hf : fuel = f + 1) (t : List Char)
    (input : List Char) :
    parsePrimary fuel ⟨SreTokenType.lparen, t⟩ input =
      (nextToken input >>= fun p => parseOr f p.1 p.2 >>= fun r =>
        consume SreTokenType.rparen r.2.1 r.2.2 >>= fun q =>
          Except.ok (r.1, q.1, q.2)) := by
  subst hf; rfl

/-- `consume` on a token of the requested type just pulls the next token. -/
theorem consume_hit (t : SreTokenType) (tx : List Char) (input : List Char) :
    consume t ⟨t, tx⟩ input = nextToken input := by
  simp [consume]

/-- C2.  Operator precedence.  First part: whenever the token stream is
`A or B and C` — `A` a complete `and`-level parse ending at an `or` keyword,
`B` and `C` complete `not`-level parses separated by an `and` keyword, the
remainder starting with neither `and` nor `or` — the parser returns
`Or A (And B C)`, and the spelling `A or ( B and C )` returns the identical
tree, so the two evaluate identically.  Second part: the stream
`not A and B` — `A` a complete primary, `B` a complete `not`-level parse —
returns `And (Not A) B`, identical to the tree for `( not A ) and B`. -/
theorem claim_C2_operator_precedence :
    (∀ (f g : Nat) (a b c : SreAst) (curA : SreToken) (inpA tOr i1 : List Char)
      (curB : SreToken) (i2 tAnd i3 : List Char) (curC : SreToken)
      (i4 : List Char) (curR : SreToken) (iR : List Char)
      (curA2 : SreToken) (inpA2 tOr2 iP1 tL iP2 : List Char) (curB2 : SreToken)
      (iP3 tAnd2 iP4 : List Char) (curC2 : SreToken) (iP5 tR iP6 : List Char)
      (curR2 : SreToken) (iR2 : List Char),
      parseAnd (f + 4) curA inpA = Except.ok (a, ⟨SreTokenType.orTok, tOr⟩, i1) →
      nextToken i1 = Except.ok (curB, i2) →
      parseNot (f + 2) curB i2 = Except.ok (b, ⟨SreTokenType.andTok, tAnd⟩, i3) →
      nextToken i3 = Except.ok (curC, i4) →
      parseNot (f + 1) curC i4 = Except.ok (c, curR, iR) →
      curR.type ≠ SreTokenType.andTok →
      curR.type ≠ SreTokenType.orTok →
      parseAnd (g + 8) curA2 inpA2 = Except.ok (a, ⟨SreTokenType.orTok, tOr2⟩, iP1) →
      nextToken iP1 = Except.ok (⟨SreTokenType.lparen, tL⟩, iP2) →
      nextToken iP2 = Except.ok (curB2, iP3) →
      parseNot (g + 2) curB2 iP3 = Except.ok (b, ⟨SreTokenType.andTok, tAnd2⟩, iP4) →
      nextToken iP4 = Except.ok (curC2, iP5) →
      parseNot (g + 1) curC2 iP5 = Except.ok (c, ⟨SreTokenType.rparen, tR⟩, iP6) →
      nextToken iP6 = Except.ok (curR2, iR2) →
      curR2.type ≠ SreTokenType.andTok →
      curR2.type ≠ SreTokenType.orTok →
      parseOr (f + 5) curA inpA =
          Except.ok (SreAst.orN a (SreAst.andN b c), curR, iR) ∧
        parseOr (g + 9) curA2 inpA2 =
          Except.ok (SreAst.orN a (SreAst.andN b c), curR2, iR2)) ∧
    (∀ (f g : Nat) (a b : SreAst) (tN inpN : List Char) (curA : SreToken)
      (iA tAnd i2 : List Char) (curB : SreToken) (i3 : List Char)
      (curR : SreToken) (iR : List Char)
      (tL inpL tN2 j1 : List Char) (curA2 : SreToken) (j2 tR2 j3 tAnd2 j4 : List Char)
      (curB2 : SreToken) (j5 : List Char) (curR2 : SreToken) (iR2 : List Char),
      nextToken inpN = Except.ok (curA, iA) →
      parsePrimary (f + 1) curA iA = Except.ok (a, ⟨SreTokenType.andTok, tAnd⟩, i2) →
      nextToken i2 = Except.ok (curB, i3) →
      parseNot (f + 1) curB i3 = Except.ok (b, curR, iR) →
      curR.type ≠ SreTokenType.andTok →
      curR.type ≠ SreTokenType.orTok →
      nextToken inpL = Except.ok (⟨SreTokenType.notTok, tN2⟩, j1) →
      nextToken j1 = Except.ok (curA2, j2) →
      parsePrimary (g + 1) curA2 j2 = Except.ok (a, ⟨SreTokenType.rparen, tR2⟩, j3) →
      nextToken j3 = Except.ok (⟨SreTokenType.andTok, tAnd2⟩, j4) →
      nextToken j4 = Except.ok (curB2, j5) →
      parseNot (g + 5) curB2 j5 = Except.ok (b, curR2, iR2) →
      curR2.type ≠ SreTokenType.andTok →
      curR2.type ≠ SreTokenType.orTok →
      parseOr (f + 4) ⟨SreTokenType.notTok, tN⟩ inpN =
          Except.ok (SreAst.andN (SreAst.notN a) b, curR, iR) ∧
        parseOr (g + 8) ⟨SreTokenType.lparen, tL⟩ inpL =
          Except.ok (SreAst.andN (SreAst.notN a) b, curR2, iR2)) := by
  constructor
  · intro f g a b c curA inpA tOr i1 curB i2 tAnd i3 curC i4 curR iR
      curA2 inpA2 tOr2 iP1 tL iP2 curB2 iP3 tAnd2 iP4 curC2 iP5 tR iP6 curR2 iR2
      h1 h2 h3 h4 h5 h6 h7 h8 h9 h10 h11 h12 h13 h14 h15 h16
    constructor
    · rw [parseOr_step (f + 5) (f + 4) rfl, h1]
      simp only [okBind]
      rw [parseOrLoop_or (f + 4) (f + 3) rfl, h2]
      simp only [okBind]
      rw [parseAnd_step (f + 3) (f + 2) rfl, h3]
      simp only [okBind]
      rw [parseAndLoop_and (f + 2) (f + 1) rfl, h4]
      simp only [okBind]
      rw [h5]
      simp only [okBind]
      rw [parseAndLoop_exit (f + 1) f rfl _ _ _ h6]
      simp only [okBind]
      rw [parseOrLoop_exit (f + 3) (f + 2) rfl _ _ _ h7]
    · rw [parseOr_step (g + 9) (g + 8) rfl, h8]
      simp only [okBind]
      rw [parseOrLoop_or (g + 8) (g + 7) rfl, h9]
      simp only [okBind]
      rw [parseAnd_step (g + 7) (g + 6) rfl]
      rw [parseNot_skip (g + 6) (g + 5) rfl _ _ (show SreTokenType.lparen ≠ SreTokenType.notTok by decide)]
      rw [parsePrimary_lparen (g + 5) (g + 4) rfl, h10]
      simp only [okBind]
      rw [parseOr_step (g + 4) (g + 3) rfl]
      rw [parseAnd_step (g + 3) (g + 2) rfl, h11]
      simp only [okBind]
      rw [parseAndLoop_and (g + 2) (g + 1) rfl, h12]
      simp only [okBind]
      rw [h13]
      simp only [okBind]
      rw [parseAndLoop_exit (g + 1) g rfl _ _ _ (show SreTokenType.rparen ≠ SreTokenType.andTok by decide)]
      simp only [okBind]
      rw [parseOrLoop_exit (g + 3) (g + 2) rfl _ _ _ (show SreTokenType.rparen ≠ SreTokenType.orTok by decide)]
      simp only [okBind]
      rw [consume_hit, h14]
      simp only [okBind]
      rw [parseAndLoop_exit (g + 6) (g + 5) rfl _ _ _ h15]
      simp only [okBind]
      rw [parseOrLoop_exit (g + 7) (g + 6) rfl _ _ _ h16]
  · intro f g a b tN inpN curA iA tAnd i2 curB i3 curR iR
      tL inpL tN2 j1 curA2 j2 tR2 j3 tAnd2 j4 curB2 j5 curR2 iR2
      k1 k2 k3 k4 k5 k6 k7 k8 k9 k10 k11 k12 k13 k14
    constructor
    · rw [parseOr_step (f + 4) (f + 3) rfl]
      rw [parseAnd_step (f + 3) (f + 2) rfl]
      rw [parseNot_not (f + 2) (f + 1) rfl, k1]
      simp only [okBind]
      rw [k2]
      simp only [okBind]
      rw [parseAndLoop_and (f + 2) (f + 1) rfl, k3]
      simp only [okBind]
      rw [k4]
      simp only [okBind]
      rw [parseAndLoop_exit (f + 1) f rfl _ _ _ k5]
      simp only [okBind]
      rw [parseOrLoop_exit (f + 3) (f + 2) rfl _ _ _ k6]
    · rw [parseOr_step (g + 8) (g + 7) rfl]
      rw [parseAnd_step (g + 7) (g + 6) rfl]
      rw [parseNot_skip (g + 6) (g + 5) rfl _ _ (show SreTokenType.lparen ≠ SreTokenType.notTok by decide)]
      rw [parsePrimary_lparen (g + 5) (g + 4) rfl, k7]
      simp only [okBind]
      rw [parseOr_step (g + 4) (g + 3) rfl]
      rw [parseAnd_step (g + 3) (g + 2) rfl]
      rw [parseNot_not (g + 2) (g + 1) rfl, k8]
      simp only [okBind]
      rw [k9]
      simp only [okBind]
      rw [parseAndLoop_exit (g + 2) (g + 1) rfl _ _ _ (show SreTokenType.rparen ≠ SreTokenType.andTok by decide)]
      simp only [okBind]
      rw [parseOrLoop_exit (g + 3) (g + 2) rfl _ _ _ (show SreTokenType.rparen ≠ SreTokenType.orTok by decide)]
      simp only [okBind]
      rw [consume_hit, k10]
      simp only [okBind]
      rw [parseAndLoop_and (g + 6) (g + 5) rfl, k11]
      simp only [okBind]
      rw [k12]
      simp only [okBind]
      rw [parseAndLoop_exit (g + 5) (g + 4) rfl _ _ _ k13]
      simp only [okBind]
      rw [parseOrLoop_exit (g + 7) (g + 6) rfl _ _ _ k14]

/-- C2 witness: `x or y and z` and `x or (y and z)` both parse to
`Or x (And y z)`, and `not x and y` and `(not x) and y` both parse to
`And (Not x) y`. -/
theorem claim_C2_operator_precedence_witness :
    (parseOr 6 ⟨SreTokenType.identifier, "x".data⟩ " or y and z".data =
      Except.ok (SreAst.orN (SreAst.value "x".data false)
        (SreAst.andN (SreAst.value "y".data false) (SreAst.value "z".data false)),
        ⟨SreTokenType.endTok, []⟩, []) ∧
     parseOr 10 ⟨SreTokenType.identifier, "x".data⟩ " or (y and z)".data =
      Except.ok (SreAst.orN (SreAst.value "x".data false)
        (SreAst.andN (SreAst.value "y".data false) (SreAst.value "z".data false)),
        ⟨SreTokenType.endTok, []⟩, [])) ∧
    (parseOr 5 ⟨SreTokenType.notTok, "not".data⟩ " x and y".data =
      Except.ok (SreAst.andN (SreAst.notN (SreAst.value "x".data false))
        (SreAst.value "y".data false), ⟨SreTokenType.endTok, []⟩, []) ∧
     parseOr 8 ⟨SreTokenType.lparen, "(".data⟩ "not x) and y".data =
      Except.ok (SreAst.andN (SreAst.notN (SreAst.value "x".data false))
        (SreAst.value "y".data false), ⟨SreTokenType.endTok, []⟩, [])) := by
  constructor
  · exact claim_C2_operator_precedence.1 1 1
      (SreAst.value "x".data false) (SreAst.value "y".data false)
      (SreAst.value "z".data false)
      ⟨SreTokenType.identifier, "x".data⟩ " or y and z".data "or".data
      " y and z".data ⟨SreTokenType.identifier, "y".data⟩ " and z".data
      "and".data " z".data ⟨SreTokenType.identifier, "z".data⟩ []
      ⟨SreTokenType.endTok, []⟩ []
      ⟨SreTokenType.identifier, "x".data⟩ " or (y and z)".data "or".data
      " (y and z)".data "(".data "y and z)".data
      ⟨SreTokenType.identifier, "y".data⟩ " and z)".data "and".data
      " z)".data ⟨SreTokenType.identifier, "z".data⟩ ")".data ")".data []
      ⟨SreTokenType.endTok, []⟩ []
      rfl rfl rfl rfl rfl (by decide) (by decide)
      rfl rfl rfl rfl rfl rfl rfl (by decide) (by decide)
  · exact claim_C2_operator_precedence.2 1 0
      (SreAst.value "x".data false) (SreAst.value "y".data false)
      "not".data " x and y".data ⟨SreTokenType.identifier, "x".data⟩
      " and y".data "and".data " y".data ⟨SreTokenType.identifier, "y".data⟩ []
      ⟨SreTokenType.endTok, []⟩ []
      "(".data "not x) and y".data "not".data " x) and y".data
      ⟨SreTokenType.identifier, "x".data⟩ ") and y".data ")".data
      " and y".data "and".data " y".data ⟨SreTokenType.identifier, "y".data⟩ []
      ⟨SreTokenType.endTok, []⟩ []
      rfl rfl rfl rfl (by decide) (by decide)
      rfl rfl rfl rfl rfl rfl (by decide) (by decide)
